import Mathlib

/-!
Shallow embedding of the core of the `estimator` package (a residential-contents
packout estimating system) and verification of its specification claims.

Source files embedded (Python → Lean, machine arithmetic modelled over ℚ/ℕ/ℤ):
  - `estimator/cartage_calculator.py`   (`calculate_cartage`)
  - `estimator/estimate.py`             (`apply_box_prediction` and helpers)
  - `estimator/estimate_adjuster.py`    (`EstimateAdjuster._get_factor`, `adjust`)
  - `estimator/pricing_engine.py`       (`calculate_storage_vaults`, `PricingEngine`)
  - `estimator/scope_checker.py`        (`ScopeChecker.check`)

Python's `round(x, n)` (round-half-to-even at the n-th decimal) is modelled
exactly over ℚ by `roundTo`.  All concrete inputs used in theorems are chosen
away from representation-dependent tie cases, so the rational model and the
floating-point source agree on them.  Human-readable note/message strings that
the Python code assembles with f-string number formatting are modelled as fixed
strings (no claim inspects their contents).
-/

/-! ## Rounding (Python `round`) -/

/-- Round-half-to-even on rationals: the integer nearest to `x`, ties going to
the even integer.  This is the rounding mode of Python's builtin `round`. -/
def roundHalfEven (x : ℚ) : ℤ :=
  if x - (⌊x⌋ : ℚ) < 1/2 then ⌊x⌋
  else if 1/2 < x - (⌊x⌋ : ℚ) then ⌊x⌋ + 1
  else if Even ⌊x⌋ then ⌊x⌋ else ⌊x⌋ + 1

/-- Python's `round(x, n)`: round `x` to `n` decimal places, half to even. -/
def roundTo (n : ℕ) (x : ℚ) : ℚ :=
  (roundHalfEven (x * 10 ^ n) : ℚ) / 10 ^ n

/-! ## Cartage engine — `estimator/cartage_calculator.py` -/

/-- `FactoryStandards`: fixed time standards in minutes. -/
structure FactoryStandards where
  pad_wrap_tag : ℚ := 8
  load_tag : ℚ := 3
  unload_tag : ℚ := 3
  move_tag_to_storage : ℚ := 5
  load_3box : ℚ := 3
  unload_3box : ℚ := 2
  move_3box_to_storage : ℚ := 6
deriving DecidableEq, Repr

/-- `CartageResult`: output of the cartage calculation. -/
structure CartageResult where
  tag_hours : ℚ := 0
  box_hours : ℚ := 0
  crew_hours : ℚ := 0
  total_hours : ℚ := 0
  cps_lab_hours : ℚ := 0
  cps_labs_hours : ℚ := 0
  minutes_per_tag : ℚ := 0
  minutes_per_box : ℚ := 0
  drive_time_min : ℚ := 0
  truck_loads : ℤ := 0
  crew_size : ℤ := 0
  carry_time_min : ℚ := 0
  tag_count : ℤ := 0
  box_count : ℤ := 0
deriving DecidableEq, Repr

/-- Unrounded TAG hours: `minutes_per_tag * tag_count / 60`. -/
def tagHoursU (standards : FactoryStandards) (carry_time_min : ℚ) (tag_count : ℤ) : ℚ :=
  (standards.pad_wrap_tag + standards.load_tag + standards.unload_tag +
    standards.move_tag_to_storage + carry_time_min) * tag_count / 60

/-- Unrounded BOX hours: `((load_3box+unload_3box+move_3box+carry)/3) * box_count / 60`. -/
def boxHoursU (standards : FactoryStandards) (carry_time_min : ℚ) (box_count : ℤ) : ℚ :=
  ((standards.load_3box + standards.unload_3box + standards.move_3box_to_storage +
    carry_time_min) / 3) * box_count / 60

/-- Unrounded CREW hours: `drive_time * 2 * crew_size * truck_loads / 60`. -/
def crewHoursU (drive_time_min : ℚ) (crew_size truck_loads : ℤ) : ℚ :=
  drive_time_min * 2 * crew_size * truck_loads / 60

/-- Unrounded total hours: TAG + BOX + CREW. -/
def totalHoursU (standards : FactoryStandards) (drive_time_min : ℚ)
    (truck_loads crew_size : ℤ) (carry_time_min : ℚ) (tag_count box_count : ℤ) : ℚ :=
  tagHoursU standards carry_time_min tag_count +
  boxHoursU standards carry_time_min box_count +
  crewHoursU drive_time_min crew_size truck_loads

/-- `calculate_cartage` from `cartage_calculator.py`: converts job inputs into
person-hours (all hour outputs rounded to 4 decimal places, per-item minute
rates to 2).  The Python signature defaults `standards=None` to
`FactoryStandards()`; here the standards are an explicit argument. -/
def calculate_cartage (drive_time_min : ℚ) (truck_loads crew_size : ℤ)
    (carry_time_min : ℚ) (tag_count box_count : ℤ)
    (standards : FactoryStandards) : CartageResult :=
  let minutes_per_tag :=
    standards.pad_wrap_tag + standards.load_tag + standards.unload_tag +
      standards.move_tag_to_storage + carry_time_min
  let tag_hours := minutes_per_tag * tag_count / 60
  let minutes_per_3box :=
    standards.load_3box + standards.unload_3box + standards.move_3box_to_storage +
      carry_time_min
  let minutes_per_box := minutes_per_3box / 3
  let box_hours := minutes_per_box * box_count / 60
  let round_trip_minutes := drive_time_min * 2
  let crew_hours := round_trip_minutes * crew_size * truck_loads / 60
  let total_hours := tag_hours + box_hours + crew_hours
  let cps_labs_hours := if crew_size > 0 then total_hours * (1 / crew_size) else 0
  let cps_lab_hours := if crew_size > 0 then total_hours - total_hours * (1 / crew_size)
    else total_hours
  { tag_hours := roundTo 4 tag_hours
    box_hours := roundTo 4 box_hours
    crew_hours := roundTo 4 crew_hours
    total_hours := roundTo 4 total_hours
    cps_lab_hours := roundTo 4 cps_lab_hours
    cps_labs_hours := roundTo 4 cps_labs_hours
    minutes_per_tag := roundTo 2 minutes_per_tag
    minutes_per_box := roundTo 2 minutes_per_box
    drive_time_min := drive_time_min
    truck_loads := truck_loads
    crew_size := crew_size
    carry_time_min := carry_time_min
    tag_count := tag_count
    box_count := box_count }

/-! ## String helpers (Python `str.lower`, substring test, `str.split`)

Implemented over `List Char` so that everything reduces in the kernel. -/

/-- Python `str.lower` (character-wise, as Lean's `Char.toLower`). -/
def lowerData (s : String) : List Char := s.data.map Char.toLower

/-- Suffix of `s` after the first occurrence of `needle`; `none` if absent. -/
def findSubAfter (needle : List Char) : List Char → Option (List Char)
  | [] => if needle.isEmpty then some [] else none
  | c :: rest =>
      if needle.isPrefixOf (c :: rest) then some ((c :: rest).drop needle.length)
      else findSubAfter needle rest

/-- Python `needle in hay` contiguous-substring test. -/
def hasSubstr (hay needle : List Char) : Bool :=
  (findSubAfter needle hay).isSome

/-- Split on the two-character sequence `.*` (for the regex subset below). -/
def splitSegsAux : List Char → List Char → List (List Char)
  | acc, [] => [acc.reverse]
  | acc, '.' :: '*' :: rest => acc.reverse :: splitSegsAux [] rest
  | acc, c :: rest => splitSegsAux (c :: acc) rest

/-- Split on `|` (top-level regex alternation). -/
def splitAltAux : List Char → List Char → List (List Char)
  | acc, [] => [acc.reverse]
  | acc, '|' :: rest => acc.reverse :: splitAltAux [] rest
  | acc, c :: rest => splitAltAux (c :: acc) rest

/-- Match a sequence of literal segments `A.*B.*C...` anywhere in `s`
(the semantics of `re.search` on the pattern subset used by the source:
literals joined by `.*`, with no newlines in the text). -/
def seqMatch : List (List Char) → List Char → Bool
  | [], _ => true
  | seg :: rest, s =>
      match findSubAfter seg s with
      | none => false
      | some s' => seqMatch rest s'

/-- `re.search(pat, text)` for the pattern subset used by the source:
top-level alternation `|` over concatenations of literals joined by `.*`.
All source patterns and all searched text are lower-case, so `re.IGNORECASE`
is the identity here. -/
def reSearch (pat : String) (text : List Char) : Bool :=
  (splitAltAux [] pat.data).any (fun branch => seqMatch (splitSegsAux [] branch) text)

/-- Split into whitespace-separated words, dropping empties (Python `str.split()`). -/
def wordsAux : List Char → List Char → List (List Char)
  | acc, [] => if acc.isEmpty then [] else [acc.reverse]
  | acc, c :: rest =>
      if c.isWhitespace then
        (if acc.isEmpty then wordsAux [] rest else acc.reverse :: wordsAux [] rest)
      else wordsAux (c :: acc) rest

/-- Deduplicate, keeping first occurrences (Python `set(...)`, ordered model). -/
def dedupAux (seen : List (List Char)) : List (List Char) → List (List Char)
  | [] => []
  | w :: rest => if w ∈ seen then dedupAux seen rest else w :: dedupAux (w :: seen) rest

/-- The word set of a string (Python `set(s.split())`). -/
def wordSet (s : List Char) : List (List Char) :=
  dedupAux [] (wordsAux [] s)

/-- Python `str.strip()`. -/
def stripData (s : List Char) : List Char :=
  ((s.dropWhile Char.isWhitespace).reverse.dropWhile Char.isWhitespace).reverse

/-- Python `dict.get`: first binding of the key in an association list. -/
def dictGet {α : Type} (m : List (String × α)) (k : String) : Option α :=
  (m.find? (fun p => p.1 == k)).map (fun p => p.2)

/-! ## Box-count inference — `estimator/estimate.py` -/

/-- A room record (the normalized shape produced by `normalize_rooms`:
`room_name`, `room_category`, `density`, `override_tags`, `override_boxes`).
Counts are the non-negative integers of the data model; Python's
`r.get(key, 0) or 0` coercion of absent values is represented by the fields
being total. -/
structure Room where
  room_name : String
  room_category : String
  density : String
  override_tags : ℕ
  override_boxes : ℕ
deriving DecidableEq, Repr

/-- One category row of the room-type baseline table: per-density typical
TAG/box counts (`typical_tags` / `typical_boxes`, possibly absent). -/
structure RoomType where
  typical_tags : Option (List (String × ℕ)) := none
  typical_boxes : Option (List (String × ℕ)) := none
deriving DecidableEq, Repr

/-- The room-type baseline table (`data/room_scope_lookup.json`,
an external read-only dataset keyed by category). -/
abbrev Baselines := List (String × RoomType)

/-- `DENSITY_TIERS` from `estimate.py`. -/
def DENSITY_TIERS : List String := ["light", "medium", "heavy", "very_heavy"]

/-- `CLOSET_ALLOCATION` from `estimate.py`. -/
def CLOSET_ALLOCATION : List (String × List (String × ℕ)) :=
  [("bedroom_primary", [("light", 5), ("medium", 15), ("heavy", 25), ("very_heavy", 35)]),
   ("bedroom",         [("light", 3), ("medium", 8),  ("heavy", 15), ("very_heavy", 22)]),
   ("bedroom_guest",   [("light", 3), ("medium", 6),  ("heavy", 12), ("very_heavy", 18)]),
   ("bedroom_kids",    [("light", 3), ("medium", 10), ("heavy", 18), ("very_heavy", 28)])]

/-- `PANTRY_ALLOCATION` from `estimate.py`. -/
def PANTRY_ALLOCATION : List (String × ℕ) :=
  [("light", 2), ("medium", 5), ("heavy", 10), ("very_heavy", 15)]

/-- `PHOTO_RELIABLE_CATEGORIES` from `estimate.py`. -/
def PHOTO_RELIABLE_CATEGORIES : List String :=
  ["living_room", "dining_room", "hallway", "exterior", "laundry"]

/-- `HIDDEN_CONTENT_CATEGORIES` from `estimate.py`. -/
def HIDDEN_CONTENT_CATEGORIES : List String :=
  ["bedroom", "bedroom_primary", "bedroom_guest", "bedroom_kids",
   "kitchen", "office", "bathroom", "closet", "garage", "basement"]

/-- `TAG_DENSITY_BUMP_THRESHOLD = 1.5`. -/
def TAG_DENSITY_BUMP_THRESHOLD : ℚ := 3/2

/-- `TAG_CLOSET_BOOST_THRESHOLD = 1.75`. -/
def TAG_CLOSET_BOOST_THRESHOLD : ℚ := 7/4

/-- `_bump_density`: bump density up one tier (capped at the top tier);
an unknown density is treated as index 1 (`medium`). -/
def bump_density (density : String) : String :=
  let idx := if DENSITY_TIERS.contains density then DENSITY_TIERS.indexOf density else 1
  DENSITY_TIERS.getD (min (idx + 1) (DENSITY_TIERS.length - 1)) "medium"

/-- `_lookup_boxes`: expected box count for a category at a density
(falling back to the `other` row, then to 6). -/
def lookup_boxes (baselines : Baselines) (room_category density : String) : ℕ :=
  let room_data := (dictGet baselines room_category).getD
    ((dictGet baselines "other").getD {})
  (dictGet (room_data.typical_boxes.getD []) density).getD 6

/-- `_lookup_tags`: baseline TAG count for a category at a density
(falling back to the `other` row, then to 5). -/
def lookup_tags (baselines : Baselines) (room_category density : String) : ℕ :=
  let room_data := (dictGet baselines room_category).getD
    ((dictGet baselines "other").getD {})
  (dictGet (room_data.typical_tags.getD []) density).getD 5

/-- The house-wide context computed once at the top of `apply_box_prediction`
(explicit-closet/pantry detection and the TAG density ratio, steps 1–3). -/
structure HouseCtx where
  has_explicit_closets : Bool
  has_explicit_pantry : Bool
  tagDensityRatio : ℚ
  density_bumped : Bool
deriving DecidableEq, Repr

/-- Step 4a: the room's effective density (bumped one tier when the
house-wide bump fired). -/
def effectiveDensity (ctx : HouseCtx) (room : Room) : String :=
  if ctx.density_bumped then bump_density room.density else room.density

/-- Steps 4b–4c: the baseline box lookup at effective density, with half the
closet allocation deducted when closets are broken out as explicit rooms. -/
def lookupAfterDeduction (baselines : Baselines) (ctx : HouseCtx) (room : Room) : ℕ :=
  let lookup0 := lookup_boxes baselines room.room_category (effectiveDensity ctx room)
  if ctx.has_explicit_closets ∧ (dictGet CLOSET_ALLOCATION room.room_category).isSome then
    let closet_portion := (dictGet ((dictGet CLOSET_ALLOCATION room.room_category).getD [])
      (effectiveDensity ctx room)).getD 0
    max (lookup0 - closet_portion / 2) 0
  else lookup0

/-- Step 4d: the closet bonus for bedroom-like rooms when no explicit closet
room exists (name-based primary-bedroom detection; one extra density tier when
the TAG ratio exceeds the stricter 1.75 threshold). -/
def closetBonus (ctx : HouseCtx) (room : Room) : ℕ :=
  if (dictGet CLOSET_ALLOCATION room.room_category).isSome ∧ ¬ ctx.has_explicit_closets then
    let closet_cat :=
      if room.room_category = "bedroom" ∧
          (hasSubstr (lowerData room.room_name) "master".data ∨
           hasSubstr (lowerData room.room_name) "primary".data ∨
           hasSubstr (lowerData room.room_name) "main bed".data) then "bedroom_primary"
      else room.room_category
    let closet_density :=
      if ctx.tagDensityRatio > TAG_CLOSET_BOOST_THRESHOLD then
        bump_density (effectiveDensity ctx room)
      else effectiveDensity ctx room
    (dictGet ((dictGet CLOSET_ALLOCATION closet_cat).getD []) closet_density).getD 6
  else 0

/-- Step 4e: the pantry bonus for kitchens when no explicit pantry room exists. -/
def pantryBonus (ctx : HouseCtx) (room : Room) : ℕ :=
  if room.room_category = "kitchen" ∧ ¬ ctx.has_explicit_pantry then
    (dictGet PANTRY_ALLOCATION (effectiveDensity ctx room)).getD 5
  else 0

/-- Step 4f: the room's predicted box total. -/
def predictedBoxes (baselines : Baselines) (ctx : HouseCtx) (room : Room) : ℕ :=
  lookupAfterDeduction baselines ctx room + closetBonus ctx room + pantryBonus ctx room

/-- Step 4g: the category-dependent upgrade decision. -/
def shouldUpgrade (baselines : Baselines) (ctx : HouseCtx) (room : Room) : Prop :=
  let photo_boxes := room.override_boxes
  let predicted := predictedBoxes baselines ctx room
  if HIDDEN_CONTENT_CATEGORIES.contains room.room_category then
    (photo_boxes : ℚ) < (predicted : ℚ) * (1/2)
  else if PHOTO_RELIABLE_CATEGORIES.contains room.room_category then
    (ctx.density_bumped ∧
      (photo_boxes : ℚ) < (lookupAfterDeduction baselines ctx room : ℚ) * (2/5)) ∨
    (photo_boxes = 0 ∧ 0 < predicted)
  else
    (photo_boxes : ℚ) < (predicted : ℚ) * (2/5)

instance (baselines : Baselines) (ctx : HouseCtx) (room : Room) :
    Decidable (shouldUpgrade baselines ctx room) := by
  unfold shouldUpgrade
  exact inferInstance

/-- Steps 4g–4i: the body of the per-room loop of `apply_box_prediction`, which
stores the corrected box count back on the room (the Python mutates
`room['override_boxes']` in place; here the updated room is returned).
`int(predicted)` in the source is the identity here because all quantities are
integral. -/
def processRoom (baselines : Baselines) (ctx : HouseCtx) (room : Room) : Room :=
  let photo_boxes := room.override_boxes
  let predicted := predictedBoxes baselines ctx room
  let bonus_only := closetBonus ctx room + pantryBonus ctx room
  if ¬ shouldUpgrade baselines ctx room ∧ 0 < bonus_only ∧
      photo_boxes < photo_boxes + bonus_only then
    let new_boxes := photo_boxes + bonus_only
    if photo_boxes < new_boxes then { room with override_boxes := new_boxes } else room
  else if shouldUpgrade baselines ctx room ∧ photo_boxes < predicted then
    { room with override_boxes := predicted }
  else room

/-- Steps 1–3 of `apply_box_prediction`: the house-wide context (explicit
closet/pantry detection, TAG density ratio against the baseline sum, and the
one-tier density bump decision). -/
def mkHouseCtx (baselines : Baselines) (rooms : List Room) : HouseCtx :=
  let total_tags : ℕ := (rooms.map (fun r => r.override_tags)).sum
  let room_categories := rooms.map (fun r => r.room_category)
  let room_names_lower := rooms.map (fun r => lowerData r.room_name)
  let baseline_tags_sum : ℕ :=
    (rooms.map (fun r => lookup_tags baselines r.room_category r.density)).sum
  let tagDensityRatio := (total_tags : ℚ) / ((max baseline_tags_sum 1 : ℕ) : ℚ)
  { has_explicit_closets := room_categories.contains "closet"
    has_explicit_pantry := room_names_lower.any (fun n => hasSubstr n "pantry".data)
    tagDensityRatio := tagDensityRatio
    density_bumped := decide (tagDensityRatio > TAG_DENSITY_BUMP_THRESHOLD) }

/-- `apply_box_prediction` from `estimate.py`: per-room box-count inference
(TAG-ratio house bump, closet/pantry hidden-space allocation, trust-threshold
upgrades).  Console `print` calls of the source are ignored. -/
def apply_box_prediction (baselines : Baselines) (rooms : List Room) : List Room :=
  let total_tags := (rooms.map (fun r => r.override_tags)).sum
  if total_tags = 0 then rooms
  else rooms.map (processRoom baselines (mkHouseCtx baselines rooms))

/-! ## Correction/adjustment layer — `estimator/estimate_adjuster.py` -/

/-- Per-subset statistics of one correction factor
(the `median` / `std` / `n` keys of `correction_factors.json`). -/
structure SubsetStats where
  median : ℚ
  std : Option ℚ := none
  n : ℕ := 0
deriving DecidableEq, Repr

/-- One metric entry of the correction-factor table. -/
structure FactorData where
  post_acquisition : Option SubsetStats := none
  all_estimates : Option SubsetStats := none
  confidence : Option ℚ := none
deriving DecidableEq, Repr

/-- The correction-factor table (external input, read-only); a `none` metric
models a key absent from the JSON object. -/
structure Factors where
  tag_multiplier : Option FactorData := none
  box_multiplier : Option FactorData := none
  labor_multiplier : Option FactorData := none
  rcv_multiplier : Option FactorData := none
deriving DecidableEq, Repr

/-- The dict returned by `_get_factor` (`value` / `std` / `confidence`). -/
structure Factor where
  value : ℚ
  std : ℚ
  confidence : ℚ
deriving DecidableEq, Repr

/-- `EstimateAdjuster._get_factor`: select the best correction factor for one
metric.  `factor_data` is `self.factors.get(factor_name, {})` (so `none`
models a missing metric). -/
def get_factor (factor_data : Option FactorData) (use_post_acq : Bool) : Factor :=
  let post := factor_data.bind (fun d => d.post_acquisition)
  let alls := factor_data.bind (fun d => d.all_estimates)
  if use_post_acq ∧ 3 ≤ (post.map (fun s => s.n)).getD 0 then
    let src := post.getD { median := 0 }
    { value := src.median
      std := src.std.getD (3/10)
      confidence := (factor_data.bind (fun d => d.confidence)).getD (7/10) }
  else if 0 < (alls.map (fun s => s.n)).getD 0 then
    let src := alls.getD { median := 0 }
    { value := src.median
      std := src.std.getD (3/10)
      confidence := (factor_data.bind (fun d => d.confidence)).getD (3/5) }
  else
    { value := 1, std := 3/10, confidence := 1/2 }

/-- `AdjustedEstimate` (numeric fields; the human-readable
`adjustment_notes` list is not modelled — no claim inspects it). -/
structure AdjustedEstimate where
  raw_tags : ℚ := 0
  adjusted_tags : ℚ := 0
  tags_low : ℚ := 0
  tags_high : ℚ := 0
  raw_boxes : ℚ := 0
  adjusted_boxes : ℚ := 0
  boxes_low : ℚ := 0
  boxes_high : ℚ := 0
  raw_labor_hours : ℚ := 0
  adjusted_labor_hours : ℚ := 0
  labor_low : ℚ := 0
  labor_high : ℚ := 0
  raw_rcv : ℚ := 0
  adjusted_rcv : ℚ := 0
  rcv_low : ℚ := 0
  rcv_high : ℚ := 0
  confidence : ℚ := 0
deriving DecidableEq, Repr

/-- `EstimateAdjuster.adjust`: apply the selected correction factors and
compute low/expected/high bands.  `tag_factor.get('std', 0.3)` etc. always
find the `std` key that `_get_factor` just set, so they are the `std` field. -/
def adjust (factors : Factors) (tags boxes labor_hours rcv : ℚ)
    (is_post_acquisition : Bool) : AdjustedEstimate :=
  let tag_factor := get_factor factors.tag_multiplier is_post_acquisition
  let box_factor := get_factor factors.box_multiplier is_post_acquisition
  let labor_factor := get_factor factors.labor_multiplier is_post_acquisition
  let rcv_factor := get_factor factors.rcv_multiplier is_post_acquisition
  let tag_std := tag_factor.std
  let box_std := box_factor.std
  let labor_std := labor_factor.std
  let rcv_std := rcv_factor.std
  { raw_tags := tags
    raw_boxes := boxes
    raw_labor_hours := labor_hours
    raw_rcv := rcv
    adjusted_tags := roundTo 0 (tags * tag_factor.value)
    adjusted_boxes := roundTo 0 (boxes * box_factor.value)
    adjusted_labor_hours := roundTo 1 (labor_hours * labor_factor.value)
    adjusted_rcv := roundTo 2 (rcv * rcv_factor.value)
    tags_low := max 0 (roundTo 0 (tags * max (1/2) (tag_factor.value - tag_std)))
    tags_high := roundTo 0 (tags * (tag_factor.value + tag_std))
    boxes_low := max 0 (roundTo 0 (boxes * max (1/2) (box_factor.value - box_std)))
    boxes_high := roundTo 0 (boxes * (box_factor.value + box_std))
    labor_low := max 0 (roundTo 1 (labor_hours * max (1/2) (labor_factor.value - labor_std)))
    labor_high := roundTo 1 (labor_hours * (labor_factor.value + labor_std))
    rcv_low := max 0 (roundTo 2 (rcv * max (1/2) (rcv_factor.value - rcv_std)))
    rcv_high := roundTo 2 (rcv * (rcv_factor.value + rcv_std))
    confidence := min tag_factor.confidence box_factor.confidence }

/-! ## Pricing engine — `estimator/pricing_engine.py` -/

/-- One row of the pricing reference (`pricing_reference.csv`). -/
structure PriceRow where
  desc : String
  unit_cost_weighted_median : ℚ
  unit : String := ""
  cat : String := ""
  sel : String := ""
  group_desc : String := ""
deriving DecidableEq, Repr

/-- `LineItem` (pre- and post-pricing fields). -/
structure LineItem where
  desc : String
  qty : ℚ
  unit : String := ""
  unit_cost : Option ℚ := none
  cat : String := ""
  sel : String := ""
  group_desc : String := ""
  applied_unit_cost : ℚ := 0
  rcv : ℚ := 0
  tax : ℚ := 0
  rcv_with_tax : ℚ := 0
  cost_source : String := ""
  deviation_pct : ℚ := 0
  is_flagged : Bool := false
  flag_reason : String := ""
deriving DecidableEq, Repr

/-- A flag record appended to `EstimateResult.flags`. -/
structure FlagEntry where
  desc : String
  reason : String
  unit_cost : ℚ
  deviation_pct : ℚ
deriving DecidableEq, Repr

/-- `EstimateResult`. -/
structure EstimateResult where
  line_items : List LineItem := []
  subtotal_rcv : ℚ := 0
  total_tax : ℚ := 0
  total_rcv_with_tax : ℚ := 0
  flags : List FlagEntry := []
  missing_items : List String := []
deriving DecidableEq, Repr

/-- `PricingEngine` state: the description-keyed lookup built in `__init__`
from the pricing CSV (keys already `strip().lower()`-normalized, later rows
overwriting earlier ones exactly as the Python dict build does), plus the
tax rate. -/
structure PricingEngine where
  pricing_lookup : List (String × PriceRow)
  tax_rate : ℚ := 0
deriving DecidableEq, Repr

/-- `PricingEngine.find_price`: exact case-insensitive match first, else the
best word-overlap fuzzy match with score strictly above 0.6 (first-best wins
on ties, as in the Python loop). -/
def find_price (engine : PricingEngine) (desc : String) : Option PriceRow :=
  let key := (stripData desc.data).map Char.toLower
  match dictGet engine.pricing_lookup (String.mk key) with
  | some row => some row
  | none =>
      let best := engine.pricing_lookup.foldl (fun acc p =>
        let desc_words := wordSet key
        let stored_words := wordSet p.1.data
        let overlap := (desc_words.filter (fun w => w ∈ stored_words)).length
        let total := max (desc_words ++ stored_words.filter (fun w => w ∉ desc_words)).length 1
        let score : ℚ := (overlap : ℚ) / (total : ℚ)
        if score > acc.2 ∧ score > 3/5 then (some p.2, score) else acc)
        ((none : Option PriceRow), (0 : ℚ))
      best.1

/-- `PricingEngine.price_line_item`: resolve the unit cost (override /
reference / not-found), flag >20% deviations from the reference median,
compute RCV and tax (2-decimal rounding), and flag zero-quantity lines.
Formatted flag messages are modelled as fixed strings. -/
def price_line_item (engine : PricingEngine) (item : LineItem) : LineItem :=
  let ref := find_price engine item.desc
  let item1 :=
    match item.unit_cost with
    | some uc =>
        let base := { item with applied_unit_cost := uc, cost_source := "override" }
        match ref with
        | some r =>
            if 0 < r.unit_cost_weighted_median then
              let dev := roundTo 1 ((uc - r.unit_cost_weighted_median) /
                r.unit_cost_weighted_median * 100)
              if 20 < |dev| then
                { base with
                  deviation_pct := dev
                  is_flagged := true
                  flag_reason := "unit cost deviates from post-acq median" }
              else { base with deviation_pct := dev }
            else base
        | none => base
    | none =>
        match ref with
        | some r =>
            { item with
              applied_unit_cost := r.unit_cost_weighted_median
              unit := if item.unit = "" then r.unit else item.unit
              cat := if item.cat = "" then r.cat else item.cat
              sel := if item.sel = "" then r.sel else item.sel
              group_desc := if item.group_desc = "" then r.group_desc else item.group_desc
              cost_source := "reference" }
        | none =>
            { item with
              applied_unit_cost := 0
              cost_source := "not_found"
              is_flagged := true
              flag_reason := "No pricing reference found" }
  let rcv := roundTo 2 (item1.applied_unit_cost * item1.qty)
  let tax := roundTo 2 (rcv * engine.tax_rate)
  let item2 := { item1 with
    rcv := rcv
    tax := tax
    rcv_with_tax := roundTo 2 (rcv + tax) }
  if item2.qty = 0 ∧ item2.cost_source ≠ "not_found" then
    { item2 with
      is_flagged := true
      flag_reason := "Zero quantity - template placeholder?" }
  else item2

/-- `PricingEngine.price_estimate`: price all line items and compute totals
(the per-item loop appending flags and missing descriptions in order). -/
def price_estimate (engine : PricingEngine) (items : List LineItem) : EstimateResult :=
  let priced := items.map (price_line_item engine)
  let subtotal := roundTo 2 ((priced.map (fun i => i.rcv)).sum)
  let ttax := roundTo 2 ((priced.map (fun i => i.tax)).sum)
  { line_items := priced
    subtotal_rcv := subtotal
    total_tax := ttax
    total_rcv_with_tax := roundTo 2 (subtotal + ttax)
    flags := priced.filterMap (fun i =>
      if i.is_flagged then
        some { desc := i.desc
               reason := i.flag_reason
               unit_cost := i.applied_unit_cost
               deviation_pct := i.deviation_pct }
      else none)
    missing_items := (priced.filter (fun i => i.cost_source = "not_found")).map
      (fun i => i.desc) }

/-- Result of `calculate_storage_vaults`. -/
structure VaultResult where
  total : ℕ
  box_vaults : ℕ
  tag_vaults : ℕ
  capacity_vaults : ℕ
  method : String
deriving DecidableEq, Repr

/-- `calculate_storage_vaults` from `pricing_engine.py`: two-method vault
derivation, taking the lower of the component and capacity estimates with a
floor of one vault. -/
def calculate_storage_vaults (tag_count box_count : ℕ) : VaultResult :=
  let box_vaults := if 0 < box_count then (⌈(box_count : ℚ) / 60⌉).toNat else 0
  let tag_vaults := if 0 < tag_count then (⌈(tag_count : ℚ) / 20⌉).toNat else 0
  let component_total := box_vaults + tag_vaults
  let total_items := tag_count + box_count
  let capacity_total := if 0 < total_items then (⌈(total_items : ℚ) / 50⌉).toNat else 0
  { total := max 1 (min component_total capacity_total)
    box_vaults := box_vaults
    tag_vaults := tag_vaults
    capacity_vaults := capacity_total
    method := if component_total ≤ capacity_total then "component" else "capacity" }

/-! ## Scope checker — `estimator/scope_checker.py` -/

/-- One line item as seen by the scope checker (`desc` and `qty` keys). -/
structure ScopeItem where
  desc : String
  qty : ℚ
deriving DecidableEq, Repr

/-- `ScopeFlag` (the optional suggestion fields are never set by `check`). -/
structure ScopeFlag where
  severity : String
  category : String
  message : String
deriving DecidableEq, Repr

/-- One element of `REQUIRED_ELEMENTS` (id, regex patterns, severity, message). -/
structure ElementData where
  eid : String
  patterns : List String
  severity : String
  message : String
deriving DecidableEq, Repr

/-- A suggested addition (fixed reason strings model the f-string messages). -/
structure Suggestion where
  desc : String
  suggested_qty : ℕ
  reason : String
deriving DecidableEq, Repr

/-- `ScopeCheckResult`. -/
structure ScopeCheckResult where
  flags : List ScopeFlag := []
  missing_phases : List String := []
  missing_materials : List String := []
  suggested_additions : List Suggestion := []
  score : ℚ := 100
deriving DecidableEq, Repr

/-- `ScopeCheckResult.critical_count`. -/
def criticalCount (r : ScopeCheckResult) : ℕ :=
  (r.flags.filter (fun f => f.severity = "critical")).length

/-- `REQUIRED_ELEMENTS` from `scope_checker.py` (in dict insertion order;
the first five entries are the critical ones). -/
def REQUIRED_ELEMENTS : List ElementData :=
  [{ eid := "packing_labor"
     patterns := ["packing.*boxing.*moving.*per hour", "moving charge.*per hour",
                  "inventory.*packing.*boxing"]
     severity := "critical"
     message := "Missing packing labor (CPS LAB)" },
   { eid := "supervisor"
     patterns := ["supervisor.*admin.*per hour", "contents evaluation.*per hour"]
     severity := "critical"
     message := "Missing supervisor hours (CPS LABS)" },
   { eid := "tag_inventory"
     patterns := ["evaluate.*tag.*inventory", "tag.*inventory.*per item"]
     severity := "critical"
     message := "Missing TAG item inventory line" },
   { eid := "box_packing"
     patterns := ["med box.*high density", "per med box"]
     severity := "critical"
     message := "Missing box packing line (med box high density)" },
   { eid := "moving_van"
     patterns := ["moving van.*per day", "moving van.*equipment"]
     severity := "critical"
     message := "Missing moving van rental" },
   { eid := "storage"
     patterns := ["storage vault.*per month", "off-site storage"]
     severity := "warning"
     message := "Missing storage - most packouts need at least 3 months" },
   { eid := "furniture_pads"
     patterns := ["furniture.*blanket.*pad", "lightweight blanket"]
     severity := "warning"
     message := "Missing furniture pads/blankets" },
   { eid := "stretch_wrap"
     patterns := ["stretch film.*wrap", "stretch wrap"]
     severity := "warning"
     message := "Missing stretch film/wrap" },
   { eid := "haul_debris"
     patterns := ["haul debris.*pickup", "dump fee"]
     severity := "warning"
     message := "Missing debris haul" }]

/-- `PHASES` from `scope_checker.py`. -/
def PHASES : List (String × List String) :=
  [("packout", ["packing.*boxing.*moving", "inventory.*packing", "evaluate.*tag"]),
   ("storage", ["storage vault", "off-site storage", "storage.*insur"]),
   ("packback", ["unpack.*invent", "unpack.*reset", "packback"]),
   ("cleaning", ["clean misc items", "clean bric-a-brac", "clean.*med box"])]

/-- The joined lower-cased description text `' | '.join(descs)` that all
patterns are searched in. -/
def descText (line_items : List ScopeItem) : List Char :=
  let descs := line_items.map (fun it => lowerData it.desc)
  match descs with
  | [] => []
  | d :: rest => rest.foldl (fun acc e => acc ++ (' ' :: '|' :: ' ' :: e)) d

/-- Whether any of a required element's patterns matches the joined text. -/
def elementFound (e : ElementData) (text : List Char) : Bool :=
  e.patterns.any (fun p => reSearch p text)

/-- The missing-element flags of the required-elements loop, in order. -/
def elementFlags : List ElementData → List Char → List ScopeFlag
  | [], _ => []
  | e :: rest, text =>
      (if elementFound e text then []
       else [{ severity := e.severity, category := "missing_element", message := e.message }])
        ++ elementFlags rest text

/-- The total score deduction of the required-elements loop
(15 per missing critical element, 5 per missing warning element). -/
def elementPenalty : List ElementData → List Char → ℚ
  | [], _ => 0
  | e :: rest, text =>
      (if elementFound e text then 0
       else if e.severity = "critical" then 15 else 5) + elementPenalty rest text

/-- The zero-quantity placeholder flags (−2 each), in item order. -/
def zeroQtyFlags (line_items : List ScopeItem) : List ScopeFlag :=
  line_items.filterMap (fun it =>
    if it.qty = 0 ∧ it.desc ≠ "" then
      some { severity := "warning", category := "zero_qty", message := "Zero quantity" }
    else none)

/-- Whether a phase's patterns match the joined text. -/
def phaseFound (phase : String) (text : List Char) : Bool :=
  ((dictGet PHASES phase).getD []).any (fun p => reSearch p text)

/-- The job-context keys `check` reads (`dict.get(key, 0)` of absent keys
modelled by the zero defaults). -/
structure JobContext where
  tag_count : ℕ := 0
  box_count : ℕ := 0
deriving DecidableEq, Repr

/-- `ScopeChecker.check`: pattern-match required scope elements, flag
zero-quantity placeholders and missing phases, compute the completeness score
(100 minus 15/5 per missing critical/warning element and 2 per zero-quantity
line, floored at 0), and emit suggested additions for large jobs. -/
def check (line_items : List ScopeItem) (job_context : JobContext) : ScopeCheckResult :=
  let text := descText line_items
  let eflags := elementFlags REQUIRED_ELEMENTS text
  let score1 : ℚ := 100 - elementPenalty REQUIRED_ELEMENTS text
  let zflags := zeroQtyFlags line_items
  let score2 := score1 - 2 * (zflags.length : ℚ)
  let packout_present := phaseFound "packout" text
  let storage_present := phaseFound "storage" text
  let cleaning_present := phaseFound "cleaning" text
  let phase_flags :=
    (if packout_present then [] else
      [{ severity := "critical"
         category := "missing_phase"
         message := "No packout scope found" : ScopeFlag }])
    ++ (if storage_present then [] else
      [{ severity := "warning"
         category := "missing_phase"
         message := "No storage scope - 86% of packouts include storage" : ScopeFlag }])
    ++ (if cleaning_present then [] else
      [{ severity := "info"
         category := "missing_phase"
         message := "No cleaning scope - commonly added later as supplement" : ScopeFlag }])
  let tc := job_context.tag_count
  let bc := job_context.box_count
  let sugg :=
    (if 50 < tc ∧ ¬ reSearch "wardrobe box" text then
      [{ desc := "Provide wardrobe box & tape - large size"
         suggested_qty := max 2 (tc / 20)
         reason := "Large job - wardrobe boxes commonly needed" : Suggestion }]
     else [])
    ++ (if 100 < bc ∧ ¬ reSearch "packing paper" text then
      [{ desc := "Provide box, packing paper & tape - medium size"
         suggested_qty := max 5 (bc / 20)
         reason := "packing paper commonly needed" : Suggestion }]
     else [])
    ++ (if 50 < bc ∧ ¬ reSearch "lg box.*high density|per lg box" text then
      [{ desc := "Eval. pack & invent. misc items - per Lg box-high density"
         suggested_qty := max 1 (bc / 20)
         reason := "Large boxes commonly needed for oversized items" : Suggestion }]
     else [])
  { flags := eflags ++ zflags ++ phase_flags
    missing_phases :=
      (if packout_present then [] else ["packout"])
      ++ (if storage_present then [] else ["storage"])
      ++ (if cleaning_present then [] else ["cleaning"])
    missing_materials := []
    suggested_additions := sugg
    score := max 0 score2 }

/-- The removal operation of claim C8 (a statement-level construct, not source
code): drop every line whose own description matches the given required
element's patterns. -/
def removeElementLines (e : ElementData) (line_items : List ScopeItem) : List ScopeItem :=
  line_items.filter (fun it => ¬ elementFound e (lowerData it.desc))

/-- A concrete correction-factor entry with recent-era `n = 5`
(used to instantiate the C1 tier-policy theorem). -/
def fdRecent : FactorData :=
  { post_acquisition := some { median := 3/2, std := some (1/10), n := 5 }
    all_estimates := some { median := 2, std := some (1/5), n := 4 }
    confidence := some (3/4) }

/-- A factor table whose tag metric is `fdRecent`. -/
def factorsRecent : Factors := { tag_multiplier := some fdRecent }

/-- A concrete correction-factor entry whose recent-era median 0.4 lies below
the 0.5 low-band floor (used to instantiate the C10 theorem). -/
def fdLowMult : FactorData :=
  { post_acquisition := some { median := 2/5, std := some (1/10), n := 5 } }

/-- A factor table whose tag metric is `fdLowMult`. -/
def factorsLowMult : Factors := { tag_multiplier := some fdLowMult }

/-- A one-category baseline table: a medium bedroom expects 5 TAGs and only
2 boxes (the baseline table is external reference data). -/
def bedroomBaselines : Baselines :=
  [("bedroom", { typical_tags := some [("medium", 5)]
                 typical_boxes := some [("medium", 2)] })]

/-- A concrete bedroom with 5 visual TAGs and 4 visual boxes. -/
def roomBedroom2 : Room :=
  { room_name := "Bedroom 2"
    room_category := "bedroom"
    density := "medium"
    override_tags := 5
    override_boxes := 4 }

/-- The house context `apply_box_prediction` computes for the one-room house
`[roomBedroom2]` over `bedroomBaselines` (TAG ratio 5/5 = 1, no bump). -/
def ctxPlain : HouseCtx :=
  { has_explicit_closets := false
    has_explicit_pantry := false
    tagDensityRatio := 1
    density_bumped := false }

/-- A complete scope: one line per required element (all nine matched). -/
def completeScope : List ScopeItem :=
  [{ desc := "packing boxing moving per hour", qty := 1 },
   { desc := "supervisor admin per hour", qty := 1 },
   { desc := "evaluate tag inventory", qty := 1 },
   { desc := "med box high density", qty := 1 },
   { desc := "moving van equipment", qty := 1 },
   { desc := "off-site storage", qty := 1 },
   { desc := "furniture blanket pad", qty := 1 },
   { desc := "stretch wrap", qty := 1 },
   { desc := "dump fee", qty := 1 }]

/-- A complete scope in which one single line matches two critical elements
at once (supervisor and moving van share a line). -/
def overlapScope : List ScopeItem :=
  [{ desc := "packing boxing moving per hour", qty := 1 },
   { desc := "supervisor admin per hour moving van equipment", qty := 1 },
   { desc := "evaluate tag inventory", qty := 1 },
   { desc := "med box high density", qty := 1 },
   { desc := "off-site storage", qty := 1 },
   { desc := "furniture blanket pad", qty := 1 },
   { desc := "stretch wrap", qty := 1 },
   { desc := "dump fee", qty := 1 }]

/-- The `supervisor` required element (second entry of `REQUIRED_ELEMENTS`). -/
def supervisorElement : ElementData :=
  { eid := "supervisor"
    patterns := ["supervisor.*admin.*per hour", "contents evaluation.*per hour"]
    severity := "critical"
    message := "Missing supervisor hours (CPS LABS)" }

/-- The `box_packing` required element (fourth entry of `REQUIRED_ELEMENTS`). -/
def boxPackingElement : ElementData :=
  { eid := "box_packing"
    patterns := ["med box.*high density", "per med box"]
    severity := "critical"
    message := "Missing box packing line (med box high density)" }

/-! ## Rounding lemmas -/

theorem roundHalfEven_intCast (z : ℤ) : roundHalfEven (z : ℚ) = z := by
  simp [roundHalfEven]

theorem roundHalfEven_sub_le (x : ℚ) : |(roundHalfEven x : ℚ) - x| ≤ 1/2 := by
  unfold roundHalfEven
  have hf : (⌊x⌋ : ℚ) ≤ x := Int.floor_le x
  have hf' : x < (⌊x⌋ : ℚ) + 1 := Int.lt_floor_add_one x
  rw [abs_le]
  split_ifs with h1 h2 h3 <;> constructor <;> push_cast <;> linarith

theorem roundHalfEven_mono {x y : ℚ} (h : x ≤ y) :
    roundHalfEven x ≤ roundHalfEven y := by
  unfold roundHalfEven
  rcases lt_or_eq_of_le (Int.floor_le_floor h : ⌊x⌋ ≤ ⌊y⌋) with hlt | heq
  · split_ifs <;> omega
  · rw [← heq]
    have hfx : (⌊x⌋ : ℚ) ≤ x := Int.floor_le x
    have hr : x - (⌊x⌋ : ℚ) ≤ y - (⌊x⌋ : ℚ) := by linarith
    split_ifs <;> first | omega | linarith

theorem roundTo_sub_le (n : ℕ) (x : ℚ) :
    |roundTo n x - x| ≤ 1 / (2 * 10 ^ n) := by
  have h := roundHalfEven_sub_le (x * 10 ^ n)
  have hpow : (0:ℚ) < 10 ^ n := by positivity
  have key : roundTo n x - x = ((roundHalfEven (x * 10 ^ n) : ℚ) - x * 10 ^ n) / 10 ^ n := by
    unfold roundTo; field_simp; ring
  rw [key, abs_div, abs_of_pos hpow, div_le_div_iff₀ hpow (by positivity)]
  calc |(roundHalfEven (x * 10 ^ n) : ℚ) - x * 10 ^ n| * (2 * 10 ^ n)
      ≤ (1/2) * (2 * 10 ^ n) := mul_le_mul_of_nonneg_right h (by positivity)
    _ = 1 * 10 ^ n := by ring

theorem roundTo_mono (n : ℕ) {x y : ℚ} (h : x ≤ y) : roundTo n x ≤ roundTo n y := by
  have hpow : (0:ℚ) ≤ 10 ^ n := by positivity
  have hm : (roundHalfEven (x * 10 ^ n) : ℚ) ≤ (roundHalfEven (y * 10 ^ n) : ℚ) := by
    exact_mod_cast roundHalfEven_mono (mul_le_mul_of_nonneg_right h hpow)
  unfold roundTo
  gcongr

/-- Compute `roundHalfEven` when the fractional part is below one half. -/
theorem roundHalfEven_eq_down {x : ℚ} {f : ℤ} (h1 : (f:ℚ) ≤ x) (h2 : x < (f:ℚ) + 1/2) :
    roundHalfEven x = f := by
  have hfl : ⌊x⌋ = f := by
    rw [Int.floor_eq_iff]
    exact ⟨h1, by linarith⟩
  unfold roundHalfEven
  rw [hfl, if_pos (by linarith)]

/-- Compute `roundHalfEven` when the fractional part is above one half. -/
theorem roundHalfEven_eq_up {x : ℚ} {f : ℤ} (h1 : (f:ℚ) + 1/2 < x) (h2 : x < (f:ℚ) + 1) :
    roundHalfEven x = f + 1 := by
  have hfl : ⌊x⌋ = f := by
    rw [Int.floor_eq_iff]
    exact ⟨by linarith, by linarith⟩
  unfold roundHalfEven
  rw [hfl, if_neg (by linarith), if_pos (by linarith)]

theorem roundTo_eq_down {n : ℕ} {x : ℚ} {f : ℤ} (h1 : (f:ℚ) ≤ x * 10 ^ n)
    (h2 : x * 10 ^ n < (f:ℚ) + 1/2) : roundTo n x = (f:ℚ) / 10 ^ n := by
  unfold roundTo
  rw [roundHalfEven_eq_down h1 h2]

theorem roundTo_eq_up {n : ℕ} {x : ℚ} {f : ℤ} (h1 : (f:ℚ) + 1/2 < x * 10 ^ n)
    (h2 : x * 10 ^ n < (f:ℚ) + 1) : roundTo n x = ((f:ℚ) + 1) / 10 ^ n := by
  unfold roundTo
  rw [roundHalfEven_eq_up h1 h2]
  push_cast
  ring

theorem roundTo_intCast (n : ℕ) (z : ℤ) : roundTo n (z : ℚ) = z := by
  unfold roundTo
  rw [show (z:ℚ) * 10 ^ n = ((z * 10 ^ n : ℤ) : ℚ) by push_cast; ring, roundHalfEven_intCast]
  have hpow : ((10:ℚ) ^ n) ≠ 0 := by positivity
  push_cast
  field_simp

theorem roundTo_zero (n : ℕ) : roundTo n 0 = 0 := by
  simpa using roundTo_intCast n 0

/-- `roundTo n` fixes every rational that is already an integer multiple of
`10⁻ⁿ` (exact-cents arithmetic). -/
theorem roundTo_eq_self (n : ℕ) (k : ℤ) : roundTo n ((k : ℚ) / 10 ^ n) = (k : ℚ) / 10 ^ n := by
  have hpow : (0:ℚ) < 10 ^ n := by positivity
  unfold roundTo
  rw [div_mul_cancel₀ _ (ne_of_gt hpow), roundHalfEven_intCast]

/-- Rounding three summands separately stays within `2·10⁻⁴` of rounding the
exact sum once. -/
theorem sum3_roundTo4_bound (a b c : ℚ) :
    |roundTo 4 a + roundTo 4 b + roundTo 4 c - roundTo 4 (a + b + c)| ≤ 2/10000 := by
  have h1 := abs_le.mp (roundTo_sub_le 4 a)
  have h2 := abs_le.mp (roundTo_sub_le 4 b)
  have h3 := abs_le.mp (roundTo_sub_le 4 c)
  have h4 := abs_le.mp (roundTo_sub_le 4 (a + b + c))
  have hc : (1:ℚ) / (2 * 10 ^ 4) = 1/20000 := by norm_num
  rw [hc] at h1 h2 h3 h4
  rw [abs_le]
  constructor <;> linarith [h1.1, h1.2, h2.1, h2.2, h3.1, h3.2, h4.1, h4.2]

/-! ## Claim C5 -/

/-- C5 (counterexample): at drive 33, 4 loads, crew 8, carry 10, 2 TAGs,
1 box (default standards), the four rounded hour fields satisfy
`tag+box+crew = 36.2834` but `total_hours = 36.2833`: the rounded components
do not sum exactly to the rounded total. -/
theorem cartage_rounded_sum_counterexample :
    (calculate_cartage 33 4 8 10 2 1 {}).tag_hours = 9667/10000 ∧
    (calculate_cartage 33 4 8 10 2 1 {}).box_hours = 1167/10000 ∧
    (calculate_cartage 33 4 8 10 2 1 {}).crew_hours = 176/5 ∧
    (calculate_cartage 33 4 8 10 2 1 {}).total_hours = 362833/10000 ∧
    (calculate_cartage 33 4 8 10 2 1 {}).total_hours ≠
      (calculate_cartage 33 4 8 10 2 1 {}).tag_hours +
      (calculate_cartage 33 4 8 10 2 1 {}).box_hours +
      (calculate_cartage 33 4 8 10 2 1 {}).crew_hours := by
  have htag : (calculate_cartage 33 4 8 10 2 1 {}).tag_hours = 9667/10000 := by
    simp only [calculate_cartage]
    rw [show ((8:ℚ) + 3 + 3 + 5 + 10) * ((2:ℤ):ℚ) / 60 = 29/30 by norm_num]
    rw [roundTo_eq_up (f := 9666) (by norm_num) (by norm_num)]
    norm_num
  have hbox : (calculate_cartage 33 4 8 10 2 1 {}).box_hours = 1167/10000 := by
    simp only [calculate_cartage]
    rw [show ((3:ℚ) + 2 + 6 + 10) / 3 * ((1:ℤ):ℚ) / 60 = 7/60 by norm_num]
    rw [roundTo_eq_up (f := 1166) (by norm_num) (by norm_num)]
    norm_num
  have hcrew : (calculate_cartage 33 4 8 10 2 1 {}).crew_hours = 176/5 := by
    simp only [calculate_cartage]
    rw [show (33:ℚ) * 2 * ((8:ℤ):ℚ) * ((4:ℤ):ℚ) / 60 = (352000:ℤ) / 10 ^ 4 by push_cast; norm_num]
    rw [roundTo_eq_self]
    norm_num
  have htot : (calculate_cartage 33 4 8 10 2 1 {}).total_hours = 362833/10000 := by
    simp only [calculate_cartage]
    rw [show ((8:ℚ) + 3 + 3 + 5 + 10) * ((2:ℤ):ℚ) / 60 + ((3:ℚ) + 2 + 6 + 10) / 3 * ((1:ℤ):ℚ) / 60 +
        (33:ℚ) * 2 * ((8:ℤ):ℚ) * ((4:ℤ):ℚ) / 60 = 2177/60 by push_cast; norm_num]
    rw [roundTo_eq_down (f := 362833) (by norm_num) (by norm_num)]
    norm_num
  refine ⟨htag, hbox, hcrew, htot, ?_⟩
  rw [htag, hbox, hcrew, htot]
  norm_num

/-- C5 (amended): `total_hours` is the 4-decimal rounding of the *exact* sum
of the unrounded TAG/BOX/CREW hours (a single rounding of the sum, so the
three independently rounded component fields can drift from `total_hours` by
up to `2·10⁻⁴`, and no further). -/
theorem cartage_total_single_rounding (d : ℚ) (l c : ℤ) (k : ℚ) (t b : ℤ)
    (s : FactoryStandards) :
    (calculate_cartage d l c k t b s).total_hours
      = roundTo 4 (totalHoursU s d l c k t b)
    ∧ |(calculate_cartage d l c k t b s).tag_hours
        + (calculate_cartage d l c k t b s).box_hours
        + (calculate_cartage d l c k t b s).crew_hours
        - (calculate_cartage d l c k t b s).total_hours| ≤ 2/10000 := by
  have htag : (calculate_cartage d l c k t b s).tag_hours = roundTo 4 (tagHoursU s k t) := rfl
  have hbox : (calculate_cartage d l c k t b s).box_hours = roundTo 4 (boxHoursU s k b) := rfl
  have hcrew : (calculate_cartage d l c k t b s).crew_hours = roundTo 4 (crewHoursU d c l) := rfl
  have htot : (calculate_cartage d l c k t b s).total_hours
      = roundTo 4 (tagHoursU s k t + boxHoursU s k b + crewHoursU d c l) := rfl
  refine ⟨htot, ?_⟩
  rw [htag, hbox, hcrew, htot]
  exact sum3_roundTo4_bound _ _ _

/-! ## Claim C6 -/

/-- C6: the billing split.  With `crew_size > 0` the supervisor (CPS LABS)
hours are the unrounded total times `1/crew_size` and the general-labor
(CPS LAB) hours are the unrounded total minus the supervisor share (each then
rounded to 4 decimals, as all hour outputs are); with `crew_size = 0`
supervisor hours are `0` and general-labor hours equal `total_hours`. -/
theorem cartage_billing_split (d : ℚ) (l c : ℤ) (k : ℚ) (t b : ℤ)
    (s : FactoryStandards) :
    (0 < c →
      (calculate_cartage d l c k t b s).cps_labs_hours
        = roundTo 4 (totalHoursU s d l c k t b * (1 / (c:ℚ)))
      ∧ (calculate_cartage d l c k t b s).cps_lab_hours
        = roundTo 4 (totalHoursU s d l c k t b
            - totalHoursU s d l c k t b * (1 / (c:ℚ))))
    ∧ (c = 0 →
      (calculate_cartage d l c k t b s).cps_labs_hours = 0
      ∧ (calculate_cartage d l c k t b s).cps_lab_hours
        = (calculate_cartage d l c k t b s).total_hours) := by
  constructor
  · intro hc
    constructor
    · show roundTo 4 (if c > 0 then _ else 0) = _
      rw [if_pos hc, totalHoursU, tagHoursU, boxHoursU, crewHoursU]
    · show roundTo 4 (if c > 0 then _ else _) = _
      rw [if_pos hc, totalHoursU, tagHoursU, boxHoursU, crewHoursU]
  · intro hc
    subst hc
    constructor
    · show roundTo 4 (if (0:ℤ) > 0 then _ else 0) = 0
      rw [if_neg (by norm_num), roundTo_zero]
    · show roundTo 4 (if (0:ℤ) > 0 then _ else _) = _
      rw [if_neg (by norm_num)]
      rfl

/-- Witness for `cartage_billing_split` at concrete inputs (crew sizes 2 and 0). -/
theorem cartage_billing_split_witness :
    (calculate_cartage 30 1 2 5 10 20 {}).cps_labs_hours
      = roundTo 4 (totalHoursU {} 30 1 2 5 10 20 * (1 / ((2:ℤ):ℚ)))
    ∧ (calculate_cartage 30 1 0 5 10 20 {}).cps_labs_hours = 0 :=
  ⟨((cartage_billing_split 30 1 2 5 10 20 {}).1 (by norm_num)).1,
   ((cartage_billing_split 30 1 0 5 10 20 {}).2 rfl).1⟩

/-! ## Claim C9 -/

/-- C9: `calculate_cartage` performs no input validation.  At the invalid
input `crew_size = -2` (drive 30, 1 load, carry 5, 10 TAGs, 0 boxes) it
silently returns a fully formed result with *negative* crew hours (−2), all
labor assigned to the general-labor bucket, instead of raising. -/
theorem calculate_cartage_negative_crew_silent :
    (calculate_cartage 30 1 (-2) 5 10 0 {}).crew_hours = -2 ∧
    (calculate_cartage 30 1 (-2) 5 10 0 {}).tag_hours = 4 ∧
    (calculate_cartage 30 1 (-2) 5 10 0 {}).total_hours = 2 ∧
    (calculate_cartage 30 1 (-2) 5 10 0 {}).cps_labs_hours = 0 ∧
    (calculate_cartage 30 1 (-2) 5 10 0 {}).cps_lab_hours = 2 ∧
    (calculate_cartage 30 1 (-2) 5 10 0 {}).crew_hours < 0 := by
  have hcrew : (calculate_cartage 30 1 (-2) 5 10 0 {}).crew_hours = -2 := by
    simp only [calculate_cartage]
    rw [show (30:ℚ) * 2 * (((-2):ℤ):ℚ) * ((1:ℤ):ℚ) / 60 = ((-2:ℤ):ℚ) by push_cast; norm_num]
    rw [roundTo_intCast]
    norm_num
  have htag : (calculate_cartage 30 1 (-2) 5 10 0 {}).tag_hours = 4 := by
    simp only [calculate_cartage]
    rw [show ((8:ℚ) + 3 + 3 + 5 + 5) * ((10:ℤ):ℚ) / 60 = ((4:ℤ):ℚ) by push_cast; norm_num]
    rw [roundTo_intCast]
    norm_num
  have htot : (calculate_cartage 30 1 (-2) 5 10 0 {}).total_hours = 2 := by
    simp only [calculate_cartage]
    rw [show ((8:ℚ) + 3 + 3 + 5 + 5) * ((10:ℤ):ℚ) / 60 + ((3:ℚ) + 2 + 6 + 5) / 3 * ((0:ℤ):ℚ) / 60 +
        (30:ℚ) * 2 * (((-2):ℤ):ℚ) * ((1:ℤ):ℚ) / 60 = ((2:ℤ):ℚ) by push_cast; norm_num]
    rw [roundTo_intCast]
    norm_num
  have hlabs : (calculate_cartage 30 1 (-2) 5 10 0 {}).cps_labs_hours = 0 := by
    show roundTo 4 (if (-2:ℤ) > 0 then _ else 0) = 0
    rw [if_neg (by norm_num), roundTo_zero]
  have hlab : (calculate_cartage 30 1 (-2) 5 10 0 {}).cps_lab_hours = 2 := by
    show roundTo 4 (if (-2:ℤ) > 0 then _ else _) = 2
    rw [if_neg (by norm_num)]
    rw [show ((8:ℚ) + 3 + 3 + 5 + 5) * ((10:ℤ):ℚ) / 60 + ((3:ℚ) + 2 + 6 + 5) / 3 * ((0:ℤ):ℚ) / 60 +
        (30:ℚ) * 2 * (((-2):ℤ):ℚ) * ((1:ℤ):ℚ) / 60 = ((2:ℤ):ℚ) by push_cast; norm_num]
    rw [roundTo_intCast]
    norm_num
  exact ⟨hcrew, htag, htot, hlabs, hlab, by rw [hcrew]; norm_num⟩

/-! ## Claim C4 -/

/-- C4: `calculate_storage_vaults` returns
`total = max(1, min(component, capacity))` with
`component = ceil(box/60) + ceil(tag/20)` and `capacity = ceil((tag+box)/50)`
(the zero-count guards in the code are redundant), the (0,0) input yields 1,
and the `method` field is `"component"` exactly when the component estimate is
at most the capacity estimate — in particular on ties. -/
theorem calculate_storage_vaults_spec (tag_count box_count : ℕ) :
    (calculate_storage_vaults tag_count box_count).total
      = max 1 (min ((⌈(box_count : ℚ) / 60⌉).toNat + (⌈(tag_count : ℚ) / 20⌉).toNat)
          (⌈((tag_count : ℚ) + (box_count : ℚ)) / 50⌉).toNat)
    ∧ (calculate_storage_vaults 0 0).total = 1
    ∧ ((calculate_storage_vaults tag_count box_count).method = "component"
        ↔ (⌈(box_count : ℚ) / 60⌉).toNat + (⌈(tag_count : ℚ) / 20⌉).toNat
            ≤ (⌈((tag_count : ℚ) + (box_count : ℚ)) / 50⌉).toNat) := by
  have hguard : ∀ (m : ℕ) (q : ℚ), (if 0 < m then (⌈(m:ℚ)/q⌉).toNat else 0) = (⌈(m:ℚ)/q⌉).toNat := by
    intro m q
    rcases Nat.eq_zero_or_pos m with h | h
    · subst h; simp
    · rw [if_pos h]
  have hcast : ((tag_count + box_count : ℕ) : ℚ) = (tag_count : ℚ) + (box_count : ℚ) := by
    push_cast; ring
  refine ⟨?_, rfl, ?_⟩
  · show max 1 (min ((if 0 < box_count then (⌈(box_count:ℚ)/60⌉).toNat else 0)
        + (if 0 < tag_count then (⌈(tag_count:ℚ)/20⌉).toNat else 0))
        (if 0 < tag_count + box_count then (⌈((tag_count + box_count : ℕ):ℚ)/50⌉).toNat else 0)) = _
    rw [hguard box_count 60, hguard tag_count 20, hguard (tag_count + box_count) 50, hcast]
  · show (if (if 0 < box_count then (⌈(box_count:ℚ)/60⌉).toNat else 0)
        + (if 0 < tag_count then (⌈(tag_count:ℚ)/20⌉).toNat else 0)
        ≤ (if 0 < tag_count + box_count then (⌈((tag_count + box_count : ℕ):ℚ)/50⌉).toNat else 0)
        then "component" else "capacity") = "component" ↔ _
    rw [hguard box_count 60, hguard tag_count 20, hguard (tag_count + box_count) 50, hcast]
    split_ifs with h
    · exact iff_of_true rfl h
    · exact iff_of_false (by decide) h

/-! ## Claim C7 -/

/-- A list all of whose members are integer multiples of a cent sums to an
integer multiple of a cent, so rounding the sum to 2 decimals is the identity. -/
theorem roundTo2_sum_cents (l : List ℚ) (h : ∀ x ∈ l, ∃ k : ℤ, x = (k:ℚ)/10^2) :
    roundTo 2 l.sum = l.sum := by
  have hsum : ∃ K : ℤ, l.sum = (K:ℚ)/10^2 := by
    induction l with
    | nil => exact ⟨0, by simp⟩
    | cons x xs ih =>
        obtain ⟨k, hk⟩ := h x (List.mem_cons_self x xs)
        obtain ⟨K, hK⟩ := ih (fun y hy => h y (List.mem_cons_of_mem x hy))
        refine ⟨k + K, ?_⟩
        rw [List.sum_cons, hk, hK]
        push_cast
        ring
  obtain ⟨K, hK⟩ := hsum
  rw [hK, roundTo_eq_self]

/-- Every priced line's RCV is an exact multiple of a cent (it is the
2-decimal rounding of `applied_unit_cost * qty`). -/
theorem price_line_item_rcv_cents (engine : PricingEngine) (item : LineItem) :
    ∃ k : ℤ, (price_line_item engine item).rcv = (k:ℚ)/10^2 := by
  unfold price_line_item
  dsimp only
  rw [apply_ite LineItem.rcv]
  dsimp only
  rw [ite_self]
  exact ⟨_, rfl⟩

/-- C7: `price_estimate` round-trip — the returned `subtotal_rcv` equals the
sum of the per-line RCV values of the returned line items exactly (to the
cent): every line RCV is rounded to 2 decimals, so their exact sum is already
a whole number of cents and the final 2-decimal rounding of the sum fixes it. -/
theorem price_estimate_subtotal_eq_sum (engine : PricingEngine) (items : List LineItem) :
    (price_estimate engine items).subtotal_rcv
      = ((price_estimate engine items).line_items.map (fun i => i.rcv)).sum := by
  show roundTo 2 (((items.map (price_line_item engine)).map (fun i => i.rcv)).sum)
      = ((items.map (price_line_item engine)).map (fun i => i.rcv)).sum
  apply roundTo2_sum_cents
  intro x hx
  rw [List.mem_map] at hx
  obtain ⟨li, hli, rfl⟩ := hx
  rw [List.mem_map] at hli
  obtain ⟨it, hit, rfl⟩ := hli
  exact price_line_item_rcv_cents engine it

/-! ## Claim C1 -/

/-- `_get_factor` on the recent-era tier: when the table has a
`post_acquisition` entry with `n ≥ 3` and the caller asks for the
post-acquisition era, the entry's median/std are returned with the table's
stored confidence (default 0.7). -/
theorem get_factor_post (fd : Option FactorData) (post : SubsetStats)
    (h1 : fd.bind (fun d => d.post_acquisition) = some post) (h3 : 3 ≤ post.n) :
    get_factor fd true
      = { value := post.median
          std := post.std.getD (3/10)
          confidence := (fd.bind (fun d => d.confidence)).getD (7/10) } := by
  unfold get_factor
  rw [if_pos]
  · rw [h1]; rfl
  · refine ⟨by simp, ?_⟩
    rw [h1]
    simpa using h3

/-- C1 (counterexample): with a recent-era sample count of 1 (tag metric:
post median 1.0/n=1, all-data median 2.0/n=10, stored confidence 0.66),
`_get_factor` returns the all-data median 2.0 with the stored confidence
0.66 — not the claimed blend 0.6·1.0 + 0.4·2.0 = 1.4 with confidence
min(0.80, 0.4 + 10·0.03) = 0.70.  The blend tier and the confidence formulas
exist only in the factor-building script, not in `_get_factor`. -/
theorem get_factor_blend_counterexample :
    get_factor (some { post_acquisition := some { median := 1, std := some (1/10), n := 1 }
                       all_estimates := some { median := 2, std := some (1/10), n := 10 }
                       confidence := some (33/50) }) true
      = { value := 2, std := 1/10, confidence := 33/50 }
    ∧ ¬ ((2:ℚ) = 6/10 * 1 + 4/10 * 2)
    ∧ ¬ ((33/50:ℚ) = min (8/10) (4/10 + 10 * (3/100))) := by
  refine ⟨?_, by norm_num, by norm_num⟩
  unfold get_factor
  rw [if_neg ?hneg, if_pos ?hpos]
  · rfl
  case hpos => norm_num
  case hneg =>
    rintro ⟨-, hle⟩
    norm_num at hle

/-- C1 (amended): the tier policy `_get_factor` actually implements — recent-era
median with the table's stored confidence (default 0.7) when `use_post_acq` and
recent-era `n ≥ 3`; else the all-data median with the stored confidence
(default 0.6), with no 60/40 blend; else multiplier 1.0, std 0.3, confidence
0.5.  With recent-era `n ≥ 3` the adjusted TAG value is `round(raw × recent-era
median)` (rounded to an integer by `round`, not the exact product). -/
theorem get_factor_tier_policy (fd : Option FactorData) (use_post : Bool)
    (factors : Factors) (tags boxes labor rcv : ℚ) (post alls : SubsetStats) :
    ((fd.bind (fun d => d.post_acquisition)) = some post → use_post = true → 3 ≤ post.n →
      get_factor fd use_post
        = { value := post.median
            std := post.std.getD (3/10)
            confidence := (fd.bind (fun d => d.confidence)).getD (7/10) })
    ∧ (¬ (use_post = true ∧
          3 ≤ ((fd.bind (fun d => d.post_acquisition)).map (fun s => s.n)).getD 0) →
        (fd.bind (fun d => d.all_estimates)) = some alls → 0 < alls.n →
      get_factor fd use_post
        = { value := alls.median
            std := alls.std.getD (3/10)
            confidence := (fd.bind (fun d => d.confidence)).getD (3/5) })
    ∧ (fd = none → get_factor fd use_post = { value := 1, std := 3/10, confidence := 1/2 })
    ∧ ((factors.tag_multiplier.bind (fun d => d.post_acquisition)) = some post → 3 ≤ post.n →
      (adjust factors tags boxes labor rcv true).adjusted_tags
        = roundTo 0 (tags * post.median)) := by
  refine ⟨?_, ?_, ?_, ?_⟩
  · intro h1 h2 h3
    subst h2
    exact get_factor_post fd post h1 h3
  · intro hno h2 h3
    unfold get_factor
    rw [if_neg ?hneg, if_pos ?hpos]
    · rw [h2]; rfl
    case hpos => rw [h2]; simpa using h3
    case hneg => exact fun hc => hno ⟨hc.1, hc.2⟩
  · intro h
    subst h
    unfold get_factor
    rw [if_neg (by simp), if_neg (by simp)]
  · intro h1 h3
    have hfield : (adjust factors tags boxes labor rcv true).adjusted_tags
        = roundTo 0 (tags * (get_factor factors.tag_multiplier true).value) := rfl
    rw [hfield, get_factor_post factors.tag_multiplier post h1 h3]

/-- Witness for `get_factor_tier_policy` on the concrete table `fdRecent`
(post median 1.5 with n = 5, stored confidence 0.75). -/
theorem get_factor_tier_policy_witness :
    get_factor (some fdRecent) true = { value := 3/2, std := 1/10, confidence := 3/4 }
    ∧ (adjust factorsRecent 10 0 0 0 true).adjusted_tags = roundTo 0 (10 * (3/2)) :=
  ⟨by
    have h := (get_factor_tier_policy (some fdRecent) true factorsRecent 10 0 0 0
      { median := 3/2, std := some (1/10), n := 5 }
      { median := 2, std := some (1/5), n := 4 }).1 rfl rfl (by norm_num)
    rw [h]
    rfl,
   (get_factor_tier_policy (some fdRecent) true factorsRecent 10 0 0 0
      { median := 3/2, std := some (1/10), n := 5 }
      { median := 2, std := some (1/5), n := 4 }).2.2.2 rfl (by norm_num)⟩

/-! ## Claim C10 -/

/-- C10: when the selected TAG multiplier `v` is below 0.5 (with `std ≥ 0` and
positive raw tags), the low band is `round(raw × max(0.5, v−std)) =
round(raw × 0.5)`, which lies at or above the adjusted value (strictly above
it before rounding), while the high band always satisfies
`adjusted ≤ high` since `std ≥ 0`: the bands do not bracket the adjusted
value from below in this regime. -/
theorem adjust_low_band_crossover (factors : Factors) (tags boxes labor rcv : ℚ)
    (post_flag : Bool)
    (htags : 0 < tags)
    (hv : (get_factor factors.tag_multiplier post_flag).value < 1/2)
    (hstd : 0 ≤ (get_factor factors.tag_multiplier post_flag).std) :
    (adjust factors tags boxes labor rcv post_flag).tags_low
        = roundTo 0 (tags * (1/2))
    ∧ tags * (get_factor factors.tag_multiplier post_flag).value < tags * (1/2)
    ∧ (adjust factors tags boxes labor rcv post_flag).adjusted_tags
        ≤ (adjust factors tags boxes labor rcv post_flag).tags_low
    ∧ (adjust factors tags boxes labor rcv post_flag).adjusted_tags
        ≤ (adjust factors tags boxes labor rcv post_flag).tags_high := by
  set v := (get_factor factors.tag_multiplier post_flag).value with hvdef
  set sd := (get_factor factors.tag_multiplier post_flag).std with hsdef
  have hmax : max (1/2 : ℚ) (v - sd) = 1/2 := max_eq_left (by linarith)
  have hlow : (adjust factors tags boxes labor rcv post_flag).tags_low
      = max 0 (roundTo 0 (tags * max (1/2) (v - sd))) := rfl
  have hadj : (adjust factors tags boxes labor rcv post_flag).adjusted_tags
      = roundTo 0 (tags * v) := rfl
  have hhigh : (adjust factors tags boxes labor rcv post_flag).tags_high
      = roundTo 0 (tags * (v + sd)) := rfl
  have hlow' : (adjust factors tags boxes labor rcv post_flag).tags_low
      = roundTo 0 (tags * (1/2)) := by
    rw [hlow, hmax]
    refine max_eq_right ?_
    have h0 : roundTo 0 (0:ℚ) ≤ roundTo 0 (tags * (1/2)) :=
      roundTo_mono 0 (by positivity)
    rwa [roundTo_zero] at h0
  have hstrict : tags * v < tags * (1/2) := by
    exact mul_lt_mul_of_pos_left hv htags
  refine ⟨hlow', hstrict, ?_, ?_⟩
  · rw [hadj, hlow']
    exact roundTo_mono 0 (le_of_lt hstrict)
  · rw [hadj, hhigh]
    exact roundTo_mono 0 (by nlinarith)

/-- Witness for `adjust_low_band_crossover`: the table `fdLowMult`
(tag multiplier 0.4, std 0.1, post n = 5), raw tags 10. -/
theorem adjust_low_band_crossover_witness :
    (adjust factorsLowMult 10 0 0 0 true).tags_low = roundTo 0 (10 * (1/2))
    ∧ (10:ℚ) * (get_factor factorsLowMult.tag_multiplier true).value < 10 * (1/2)
    ∧ (adjust factorsLowMult 10 0 0 0 true).adjusted_tags
      ≤ (adjust factorsLowMult 10 0 0 0 true).tags_low
    ∧ (adjust factorsLowMult 10 0 0 0 true).adjusted_tags
      ≤ (adjust factorsLowMult 10 0 0 0 true).tags_high := by
  have hfac : get_factor factorsLowMult.tag_multiplier true
      = { value := 2/5, std := 1/10, confidence := 7/10 } :=
    get_factor_post factorsLowMult.tag_multiplier
      { median := 2/5, std := some (1/10), n := 5 } rfl (by norm_num)
  exact adjust_low_band_crossover factorsLowMult 10 0 0 0 true (by norm_num)
    (by rw [hfac]; norm_num) (by rw [hfac]; norm_num)

/-! ## Claim C3 -/

/-- The per-room loop body never touches the TAG count. -/
theorem processRoom_tags (B : Baselines) (ctx : HouseCtx) (room : Room) :
    (processRoom B ctx room).override_tags = room.override_tags := by
  simp only [processRoom]
  split_ifs <;> rfl

/-- The per-room loop body never decreases the box count. -/
theorem processRoom_boxes_mono (B : Baselines) (ctx : HouseCtx) (room : Room) :
    room.override_boxes ≤ (processRoom B ctx room).override_boxes := by
  simp only [processRoom]
  split_ifs with h1 h2 h3
  · exact Nat.le_add_right _ _
  · exact le_rfl
  · exact le_of_lt h3.2
  · exact le_rfl

/-- C3: `apply_box_prediction` relates its input and output room lists
pairwise — every output room keeps its input TAG count and its box count is
at least the input visual box count (monotone non-decreasing upgrade). -/
theorem apply_box_prediction_monotone (B : Baselines) (rooms : List Room) :
    List.Forall₂ (fun r r' => r'.override_tags = r.override_tags
      ∧ r.override_boxes ≤ r'.override_boxes) rooms (apply_box_prediction B rooms) := by
  simp only [apply_box_prediction]
  split_ifs with h
  · exact List.forall₂_same.mpr (fun r _ => ⟨rfl, le_rfl⟩)
  · rw [List.forall₂_map_right_iff]
    exact List.forall₂_same.mpr
      (fun r _ => ⟨processRoom_tags B (mkHouseCtx B rooms) r,
                   processRoom_boxes_mono B (mkHouseCtx B rooms) r⟩)

/-! ## Claim C2 -/

/-- C2 (amended): when a room has a nonzero closet/pantry bonus, the bonus is
added on top of the *visual* count exactly when the upgrade decision did not
fire; when the upgrade fires, the stored count becomes
`lookup + bonus`, so in general the output is only at least
`min(visual, lookup) + bonus` — not necessarily `visual + bonus`. -/
theorem processRoom_bonus_additivity (B : Baselines) (ctx : HouseCtx) (room : Room)
    (hb : 0 < closetBonus ctx room + pantryBonus ctx room) :
    (¬ shouldUpgrade B ctx room →
      (processRoom B ctx room).override_boxes
        = room.override_boxes + (closetBonus ctx room + pantryBonus ctx room))
    ∧ min room.override_boxes (lookupAfterDeduction B ctx room)
        + (closetBonus ctx room + pantryBonus ctx room)
      ≤ (processRoom B ctx room).override_boxes := by
  have hpred : predictedBoxes B ctx room
      = lookupAfterDeduction B ctx room + closetBonus ctx room + pantryBonus ctx room := rfl
  constructor
  · intro hup
    simp only [processRoom]
    rw [if_pos ⟨hup, hb, Nat.lt_add_of_pos_right hb⟩, if_pos (Nat.lt_add_of_pos_right hb)]
  · simp only [processRoom]
    split_ifs with h1 h2 h3
    · have hm := min_le_left room.override_boxes (lookupAfterDeduction B ctx room)
      show min room.override_boxes (lookupAfterDeduction B ctx room)
          + (closetBonus ctx room + pantryBonus ctx room)
        ≤ room.override_boxes + (closetBonus ctx room + pantryBonus ctx room)
      omega
    · exact absurd h1.2.2 h2
    · have hm := min_le_right room.override_boxes (lookupAfterDeduction B ctx room)
      show min room.override_boxes (lookupAfterDeduction B ctx room)
          + (closetBonus ctx room + pantryBonus ctx room)
        ≤ predictedBoxes B ctx room
      omega
    · have hshould : shouldUpgrade B ctx room := by
        by_contra hns
        exact h1 ⟨hns, hb, Nat.lt_add_of_pos_right hb⟩
      have hple : predictedBoxes B ctx room ≤ room.override_boxes := by
        by_contra hlt
        exact h3 ⟨hshould, Nat.lt_of_not_le hlt⟩
      have hm := min_le_left room.override_boxes (lookupAfterDeduction B ctx room)
      show min room.override_boxes (lookupAfterDeduction B ctx room)
          + (closetBonus ctx room + pantryBonus ctx room)
        ≤ room.override_boxes
      omega

/-- The closet bonus of `roomBedroom2` in the `ctxPlain` house is the
medium-bedroom closet allocation, 8 boxes. -/
theorem closetBonus_bedroom2 : closetBonus ctxPlain roomBedroom2 = 8 := by
  simp only [closetBonus]
  rw [if_pos (by decide), if_neg (by decide), if_neg ?hq]
  · decide
  case hq =>
    show ¬ ctxPlain.tagDensityRatio > TAG_CLOSET_BOOST_THRESHOLD
    rw [show ctxPlain.tagDensityRatio = 1 from rfl]
    norm_num [TAG_CLOSET_BOOST_THRESHOLD]

/-- The `apply_box_prediction` context for the one-bedroom house equals
`ctxPlain`. -/
theorem mkHouseCtx_bedroom2 : mkHouseCtx bedroomBaselines [roomBedroom2] = ctxPlain := by
  simp only [mkHouseCtx]
  congr 1
  · rw [show (List.map (fun r => r.override_tags) [roomBedroom2]).sum = 5 from rfl]
    rw [show ((List.map (fun r => lookup_tags bedroomBaselines r.room_category r.density)
        [roomBedroom2]).sum ⊔ 1) = 5 from rfl]
    show ((5:ℕ):ℚ) / ((5:ℕ):ℚ) = ctxPlain.tagDensityRatio
    rw [show ctxPlain.tagDensityRatio = 1 from rfl]
    norm_num
  · rw [show (List.map (fun r => r.override_tags) [roomBedroom2]).sum = 5 from rfl]
    rw [show ((List.map (fun r => lookup_tags bedroomBaselines r.room_category r.density)
        [roomBedroom2]).sum ⊔ 1) = 5 from rfl]
    apply decide_eq_false
    rw [show ((5:ℕ):ℚ) / ((5:ℕ):ℚ) = 1 by norm_num]
    norm_num [TAG_DENSITY_BUMP_THRESHOLD]

/-- Evaluation of the per-room loop on `roomBedroom2`: the upgrade fires
(4 < 0.5·10) and the stored box count becomes the predicted 10. -/
theorem processRoom_bedroom2 :
    processRoom bedroomBaselines ctxPlain roomBedroom2
      = { roomBedroom2 with override_boxes := 10 } := by
  have hpb : pantryBonus ctxPlain roomBedroom2 = 0 := by decide
  have hld : lookupAfterDeduction bedroomBaselines ctxPlain roomBedroom2 = 2 := by decide
  have hpred : predictedBoxes bedroomBaselines ctxPlain roomBedroom2 = 10 := by
    show lookupAfterDeduction bedroomBaselines ctxPlain roomBedroom2
      + closetBonus ctxPlain roomBedroom2 + pantryBonus ctxPlain roomBedroom2 = 10
    rw [hld, closetBonus_bedroom2, hpb]
  have hsu : shouldUpgrade bedroomBaselines ctxPlain roomBedroom2 := by
    unfold shouldUpgrade
    rw [if_pos (by decide)]
    rw [hpred]
    show ((roomBedroom2.override_boxes : ℕ) : ℚ) < ((10:ℕ):ℚ) * (1/2)
    rw [show roomBedroom2.override_boxes = 4 from rfl]
    push_cast
    norm_num
  have hlt : roomBedroom2.override_boxes < predictedBoxes bedroomBaselines ctxPlain roomBedroom2 := by
    rw [hpred]
    decide
  simp only [processRoom]
  rw [if_neg (fun h => h.1 hsu), if_pos ⟨hsu, hlt⟩, hpred]

/-- C2 (counterexample): in the one-bedroom house over `bedroomBaselines`,
the room's closet+pantry bonus is 8 and its visual count is 4, but the final
stored box count is the upgraded prediction 10 < 4 + 8: the bonus is *not*
always added on top of the visual count when the upgrade fires. -/
theorem apply_box_prediction_bonus_counterexample :
    apply_box_prediction bedroomBaselines [roomBedroom2]
      = [{ roomBedroom2 with override_boxes := 10 }]
    ∧ closetBonus (mkHouseCtx bedroomBaselines [roomBedroom2]) roomBedroom2
        + pantryBonus (mkHouseCtx bedroomBaselines [roomBedroom2]) roomBedroom2 = 8
    ∧ roomBedroom2.override_boxes = 4
    ∧ ¬ (roomBedroom2.override_boxes + 8 ≤ 10) := by
  refine ⟨?_, ?_, rfl, by decide⟩
  · simp only [apply_box_prediction]
    rw [if_neg (by decide), mkHouseCtx_bedroom2]
    rw [show [roomBedroom2].map (processRoom bedroomBaselines ctxPlain)
        = [processRoom bedroomBaselines ctxPlain roomBedroom2] from rfl]
    rw [processRoom_bedroom2]
  · rw [mkHouseCtx_bedroom2, closetBonus_bedroom2,
        show pantryBonus ctxPlain roomBedroom2 = 0 from by decide]

/-- Witness for `processRoom_bonus_additivity` on the concrete bedroom. -/
theorem processRoom_bonus_additivity_witness :
    (¬ shouldUpgrade bedroomBaselines ctxPlain roomBedroom2 →
      (processRoom bedroomBaselines ctxPlain roomBedroom2).override_boxes
        = roomBedroom2.override_boxes
          + (closetBonus ctxPlain roomBedroom2 + pantryBonus ctxPlain roomBedroom2))
    ∧ min roomBedroom2.override_boxes
          (lookupAfterDeduction bedroomBaselines ctxPlain roomBedroom2)
        + (closetBonus ctxPlain roomBedroom2 + pantryBonus ctxPlain roomBedroom2)
      ≤ (processRoom bedroomBaselines ctxPlain roomBedroom2).override_boxes :=
  processRoom_bonus_additivity bedroomBaselines ctxPlain roomBedroom2
    (by rw [closetBonus_bedroom2, show pantryBonus ctxPlain roomBedroom2 = 0 from by decide]
        decide)

/-! ## Claim C8 -/

/-- Every zero-quantity flag has severity `warning`. -/
theorem zeroQtyFlags_severity (items : List ScopeItem) :
    ∀ f ∈ zeroQtyFlags items, f.severity = "warning" := by
  intro f hf
  unfold zeroQtyFlags at hf
  rw [List.mem_filterMap] at hf
  obtain ⟨it, -, hit⟩ := hf
  split_ifs at hit with h
  rw [Option.some.injEq] at hit
  subst hit
  rfl

/-- Zero-quantity flags never contribute to the critical count. -/
theorem filter_crit_zeroQtyFlags (items : List ScopeItem) :
    (zeroQtyFlags items).filter (fun f => f.severity = "critical") = [] := by
  rw [List.filter_eq_nil]
  intro f hf
  rw [zeroQtyFlags_severity items f hf]
  simp

/-- The completeness score of `check`: 100 minus the required-element
penalties minus 2 per zero-quantity line, floored at 0. -/
theorem score_check (items : List ScopeItem) (ctx : JobContext) :
    (check items ctx).score
      = max 0 (100 - elementPenalty REQUIRED_ELEMENTS (descText items)
          - 2 * ((zeroQtyFlags items).length : ℚ)) := rfl

/-- The critical flags of `check` are the missing critical elements plus the
missing-packout phase flag. -/
theorem criticalCount_check (items : List ScopeItem) (ctx : JobContext) :
    criticalCount (check items ctx)
      = ((elementFlags REQUIRED_ELEMENTS (descText items)).filter
          (fun f => f.severity = "critical")).length
        + (if phaseFound "packout" (descText items) then 0 else 1) := by
  unfold criticalCount check
  dsimp only
  rw [List.filter_append, List.filter_append, List.length_append, List.length_append,
      filter_crit_zeroQtyFlags]
  cases hpk : phaseFound "packout" (descText items) <;>
    cases hst : phaseFound "storage" (descText items) <;>
      cases hcl : phaseFound "cleaning" (descText items) <;>
        simp

/-- The required-element penalty is 15 per missing critical element and 5 per
missing warning element. -/
theorem elementPenalty_eq (elems : List ElementData) (text : List Char) :
    elementPenalty elems text
      = 15 * ((elems.filter
            (fun e => !(elementFound e text) && decide (e.severity = "critical"))).length : ℚ)
        + 5 * ((elems.filter
            (fun e => !(elementFound e text) && !(decide (e.severity = "critical")))).length : ℚ) := by
  induction elems with
  | nil => simp [elementPenalty]
  | cons e rest ih =>
      rw [show elementPenalty (e :: rest) text
          = (if elementFound e text then 0
             else if e.severity = "critical" then 15 else 5) + elementPenalty rest text from rfl]
      rw [List.filter_cons, List.filter_cons, ih]
      by_cases hf : elementFound e text
      · simp [hf]
      · by_cases hc : e.severity = "critical"
        · rw [if_neg hf, if_pos hc,
              if_pos (show (!elementFound e text
                && decide (e.severity = "critical")) = true by simp [hf, hc]),
              if_neg (show ¬((!elementFound e text
                && !decide (e.severity = "critical")) = true) by simp [hc])]
          push_cast [List.length_cons]
          ring
        · rw [if_neg hf, if_neg hc,
              if_neg (show ¬((!elementFound e text
                && decide (e.severity = "critical")) = true) by simp [hc]),
              if_pos (show (!elementFound e text
                && !decide (e.severity = "critical")) = true by simp [hf, hc])]
          push_cast [List.length_cons]
          ring

/-- The critical missing-element flags correspond one-to-one to the missing
critical elements. -/
theorem elementFlags_critFilter (elems : List ElementData) (text : List Char) :
    (elementFlags elems text).filter (fun f => f.severity = "critical")
      = (elems.filter
          (fun e => !(elementFound e text) && decide (e.severity = "critical"))).map
          (fun e => { severity := e.severity, category := "missing_element",
                      message := e.message }) := by
  induction elems with
  | nil => rfl
  | cons e rest ih =>
      rw [show elementFlags (e :: rest) text
          = (if elementFound e text then []
             else [{ severity := e.severity, category := "missing_element",
                     message := e.message }]) ++ elementFlags rest text from rfl]
      rw [List.filter_append, List.filter_cons, ih]
      by_cases hf : elementFound e text
      · simp [hf]
      · by_cases hc : e.severity = "critical"
        · rw [if_neg (by simp [hf])]
          rw [if_pos (by simp [hf, hc])]
          simp [hc]
        · rw [if_neg (by simp [hf])]
          rw [if_neg (by simp [hf, hc])]
          simp [hc]

/-- A filter keeping exactly one element of a duplicate-free list has
length one. -/
theorem length_filter_eq_one {α : Type} [DecidableEq α] (l : List α) (p : α → Bool)
    (a : α) (hmem : a ∈ l) (hone : l.count a = 1) (hpa : p a = true)
    (hother : ∀ b ∈ l, b ≠ a → p b = false) :
    (l.filter p).length = 1 := by
  induction l with
  | nil => cases hmem
  | cons hd tl ih =>
      rw [List.filter_cons]
      by_cases hda : hd = a
      · subst hda
        rw [List.count_cons_self] at hone
        have hnotin : hd ∉ tl := List.count_eq_zero.mp (by omega)
        rw [if_pos hpa]
        have htl : tl.filter p = [] := by
          rw [List.filter_eq_nil]
          intro b hb
          have hbne : b ≠ hd := fun hEq => hnotin (hEq ▸ hb)
          rw [hother b (List.mem_cons_of_mem _ hb) hbne]
          simp
        simp [htl]
      · have hmem' : a ∈ tl := by
          rcases List.mem_cons.mp hmem with h | h
          · exact absurd h.symm hda
          · exact h
        have hone' : tl.count a = 1 := by
          rw [List.count_cons] at hone
          simpa [hda] using hone
        have hphd : p hd = false := hother hd (List.mem_cons_self _ _) hda
        rw [if_neg (by rw [hphd]; simp)]
        exact ih hmem' hone' (fun b hb hbe => hother b (List.mem_cons_of_mem _ hb) hbe)

/-- C8 (amended): removing the lines matching one critical required element
from a complete item list drops the score by exactly 15 and adds exactly one
critical flag, *provided* the removal leaves every other required element
still matched, leaves the zero-quantity flags and packout-phase detection
unchanged, and the score does not hit the floor at 0.  (Without these side
conditions the claim fails: a single line can match two critical elements at
once — see the counterexample.) -/
theorem check_remove_critical_element (L : List ScopeItem) (ctx : JobContext)
    (e : ElementData)
    (hmem : e ∈ REQUIRED_ELEMENTS) (hcrit : e.severity = "critical")
    (hFull : ∀ e2 ∈ REQUIRED_ELEMENTS, elementFound e2 (descText L) = true)
    (hOthers : ∀ e2 ∈ REQUIRED_ELEMENTS, e2 ≠ e →
        elementFound e2 (descText (removeElementLines e L)) = true)
    (hSelf : elementFound e (descText (removeElementLines e L)) = false)
    (hZero : (zeroQtyFlags (removeElementLines e L)).length = (zeroQtyFlags L).length)
    (hPackout : phaseFound "packout" (descText (removeElementLines e L))
        = phaseFound "packout" (descText L))
    (hNoFloor : ((zeroQtyFlags L).length : ℚ) ≤ 42) :
    (check (removeElementLines e L) ctx).score = (check L ctx).score - 15
    ∧ criticalCount (check (removeElementLines e L) ctx)
        = criticalCount (check L ctx) + 1 := by
  have hfullCrit : REQUIRED_ELEMENTS.filter
      (fun e2 => !(elementFound e2 (descText L)) && decide (e2.severity = "critical")) = [] := by
    rw [List.filter_eq_nil]
    intro e2 he2
    simp [hFull e2 he2]
  have hfullWarn : REQUIRED_ELEMENTS.filter
      (fun e2 => !(elementFound e2 (descText L)) && !(decide (e2.severity = "critical"))) = [] := by
    rw [List.filter_eq_nil]
    intro e2 he2
    simp [hFull e2 he2]
  have hnodup : REQUIRED_ELEMENTS.Nodup := by decide
  have hone : REQUIRED_ELEMENTS.count e = 1 := List.count_eq_one_of_mem hnodup hmem
  have hlenCrit : (REQUIRED_ELEMENTS.filter
      (fun e2 => !(elementFound e2 (descText (removeElementLines e L)))
        && decide (e2.severity = "critical"))).length = 1 := by
    apply length_filter_eq_one _ _ e hmem hone
    · simp [hSelf, hcrit]
    · intro b hb hbe
      simp [hOthers b hb hbe]
  have hwarn2 : REQUIRED_ELEMENTS.filter
      (fun e2 => !(elementFound e2 (descText (removeElementLines e L)))
        && !(decide (e2.severity = "critical"))) = [] := by
    rw [List.filter_eq_nil]
    intro e2 he2
    by_cases h : e2 = e
    · subst h
      simp [hcrit]
    · simp [hOthers e2 he2 h]
  constructor
  · rw [score_check, score_check, elementPenalty_eq, elementPenalty_eq,
        hfullCrit, hfullWarn, hlenCrit, hwarn2, hZero]
    simp only [List.length_nil, Nat.cast_zero, Nat.cast_one]
    rw [max_eq_right (by linarith), max_eq_right (by linarith)]
    ring
  · rw [criticalCount_check, criticalCount_check, hPackout,
        elementFlags_critFilter, elementFlags_critFilter, List.length_map, List.length_map,
        hfullCrit, hlenCrit]
    cases phaseFound "packout" (descText L) <;> simp

/-- Witness for `check_remove_critical_element`: removing the box-packing
line from the nine-line complete scope. -/
theorem check_remove_critical_element_witness :
    (check (removeElementLines boxPackingElement completeScope) {}).score
        = (check completeScope {}).score - 15
    ∧ criticalCount (check (removeElementLines boxPackingElement completeScope) {})
        = criticalCount (check completeScope {}) + 1 :=
  check_remove_critical_element completeScope {} boxPackingElement
    (by decide) rfl (by decide) (by decide) (by decide) (by decide) (by decide)
    (by rw [show (zeroQtyFlags completeScope).length = 0 from by decide]; norm_num)

/-- C8 (counterexample): in `overlapScope` one line matches both the
supervisor and the moving-van critical elements.  The list is complete
(score 100, no critical flags), yet removing the line(s) matching the
supervisor element drops the score by 30 (to 70) and adds two critical
flags — not 15 and one. -/
theorem check_remove_supervisor_counterexample :
    (check overlapScope {}).score = 100
    ∧ (check (removeElementLines supervisorElement overlapScope) {}).score = 70
    ∧ criticalCount (check overlapScope {}) = 0
    ∧ criticalCount (check (removeElementLines supervisorElement overlapScope) {}) = 2
    ∧ ¬ ((check (removeElementLines supervisorElement overlapScope) {}).score
          = (check overlapScope {}).score - 15
        ∧ criticalCount (check (removeElementLines supervisorElement overlapScope) {})
          = criticalCount (check overlapScope {}) + 1) := by
  have h1 : (check overlapScope {}).score = 100 := by
    rw [score_check, elementPenalty_eq]
    rw [show REQUIRED_ELEMENTS.filter
        (fun e2 => !(elementFound e2 (descText overlapScope))
          && decide (e2.severity = "critical")) = [] from by decide]
    rw [show REQUIRED_ELEMENTS.filter
        (fun e2 => !(elementFound e2 (descText overlapScope))
          && !(decide (e2.severity = "critical"))) = [] from by decide]
    rw [show (zeroQtyFlags overlapScope).length = 0 from by decide]
    norm_num
  have h2 : (check (removeElementLines supervisorElement overlapScope) {}).score = 70 := by
    rw [score_check, elementPenalty_eq]
    rw [show (REQUIRED_ELEMENTS.filter
        (fun e2 => !(elementFound e2 (descText (removeElementLines supervisorElement overlapScope)))
          && decide (e2.severity = "critical"))).length = 2 from by decide]
    rw [show REQUIRED_ELEMENTS.filter
        (fun e2 => !(elementFound e2 (descText (removeElementLines supervisorElement overlapScope)))
          && !(decide (e2.severity = "critical"))) = [] from by decide]
    rw [show (zeroQtyFlags (removeElementLines supervisorElement overlapScope)).length = 0
        from by decide]
    norm_num
  have h3 : criticalCount (check overlapScope {}) = 0 := by
    rw [criticalCount_check, elementFlags_critFilter, List.length_map]
    rw [show REQUIRED_ELEMENTS.filter
        (fun e2 => !(elementFound e2 (descText overlapScope))
          && decide (e2.severity = "critical")) = [] from by decide]
    rw [show phaseFound "packout" (descText overlapScope) = true from by decide]
    simp
  have h4 : criticalCount (check (removeElementLines supervisorElement overlapScope) {}) = 2 := by
    rw [criticalCount_check, elementFlags_critFilter, List.length_map]
    rw [show (REQUIRED_ELEMENTS.filter
        (fun e2 => !(elementFound e2 (descText (removeElementLines supervisorElement overlapScope)))
          && decide (e2.severity = "critical"))).length = 2 from by decide]
    rw [show phaseFound "packout"
        (descText (removeElementLines supervisorElement overlapScope)) = true from by decide]
    simp
  refine ⟨h1, h2, h3, h4, ?_⟩
  rintro ⟨hs, -⟩
  rw [h1, h2] at hs
  norm_num at hs
